import Mathlib

-- Verification development for the TwiML builder library (src/src/twiml.rs).
-- The element-tree construction layer (ElementFactory and the per-element
-- builder types) is embedded from the Rust source.  The XML serialization
-- itself is performed by the external xml_builder crate, whose source is not
-- part of this repository; those parts are modelled from the specification
-- (spec.md sections 4.3 and 6) and are marked "Modelled from the spec".

/-- The double-quote character, written via its code point. -/
def quoteChar : Char := Char.ofNat 34

/-- The apostrophe character, written via its code point. -/
def aposChar : Char := Char.ofNat 39

/-- Modelled from the spec: XML escaping of a single character.  The spec
requires escaping of the five characters ampersand, less-than, greater-than,
double quote and apostrophe in attribute values and text; the escaping is
performed inside the external xml_builder crate, which is not under src/. -/
def escapeChar (c : Char) : List Char :=
  if c = '&' then ['&', 'a', 'm', 'p', ';']
  else if c = '<' then ['&', 'l', 't', ';']
  else if c = '>' then ['&', 'g', 't', ';']
  else if c = quoteChar then ['&', 'q', 'u', 'o', 't', ';']
  else if c = aposChar then ['&', 'a', 'p', 'o', 's', ';']
  else [c]

/-- Modelled from the spec: XML escaping of a character list. -/
def escapeList : List Char → List Char
  | [] => []
  | c :: rest => escapeChar c ++ escapeList rest

/-- Modelled from the spec: XML escaping of a string. -/
def escape (s : String) : String := String.mk (escapeList s.data)

/-- A character list is in fully escaped form: it contains none of the raw
characters less-than, greater-than, double quote or apostrophe, and every
ampersand begins one of the five entities amp, lt, gt, quot, apos. -/
def escapedForm : List Char → Bool
  | [] => true
  | c :: rest =>
    if c = '<' then false
    else if c = '>' then false
    else if c = quoteChar then false
    else if c = aposChar then false
    else if c = '&' then
      if ['a', 'm', 'p', ';'].isPrefixOf rest then escapedForm (rest.drop 4)
      else if ['l', 't', ';'].isPrefixOf rest then escapedForm (rest.drop 3)
      else if ['g', 't', ';'].isPrefixOf rest then escapedForm (rest.drop 3)
      else if ['q', 'u', 'o', 't', ';'].isPrefixOf rest then escapedForm (rest.drop 5)
      else if ['a', 'p', 'o', 's', ';'].isPrefixOf rest then escapedForm (rest.drop 5)
      else false
    else escapedForm rest
termination_by l => l.length
decreasing_by all_goals (simp [List.length_drop]; try omega)

/-- Re-parsing of escaped character data: each of the five entities is turned
back into the character it denotes, every other character passes through. -/
def unescapeList : List Char → List Char
  | [] => []
  | c :: rest =>
    if c = '&' then
      if ['a', 'm', 'p', ';'].isPrefixOf rest then '&' :: unescapeList (rest.drop 4)
      else if ['l', 't', ';'].isPrefixOf rest then '<' :: unescapeList (rest.drop 3)
      else if ['g', 't', ';'].isPrefixOf rest then '>' :: unescapeList (rest.drop 3)
      else if ['q', 'u', 'o', 't', ';'].isPrefixOf rest then quoteChar :: unescapeList (rest.drop 5)
      else if ['a', 'p', 'o', 's', ';'].isPrefixOf rest then aposChar :: unescapeList (rest.drop 5)
      else c :: unescapeList rest
    else c :: unescapeList rest
termination_by l => l.length
decreasing_by all_goals (simp [List.length_drop]; try omega)

/-- Re-parsing of escaped string data. -/
def unescape (s : String) : String := String.mk (unescapeList s.data)

/-- The generic element node, embedded from struct ElementFactory in
src/src/twiml.rs: an element name, an optional text payload, an ordered list
of attribute pairs and an ordered list of child nodes.  The Rust children
vector holds boxed TwiMLElement trait objects; since every element type in the
catalogue renders through its inner ElementFactory, a child is represented
here directly by its ElementFactory value. -/
inductive ElementFactory : Type where
  | mk (element : String) (text : Option String)
      (attributes : List (String × String))
      (children : List ElementFactory) : ElementFactory
deriving Repr

/-- The element name field of an ElementFactory. -/
def ElementFactory.element : ElementFactory → String
  | .mk e _ _ _ => e

/-- The text field of an ElementFactory. -/
def ElementFactory.text : ElementFactory → Option String
  | .mk _ t _ _ => t

/-- The attributes field of an ElementFactory. -/
def ElementFactory.attributes : ElementFactory → List (String × String)
  | .mk _ _ a _ => a

/-- The children field of an ElementFactory. -/
def ElementFactory.children : ElementFactory → List ElementFactory
  | .mk _ _ _ c => c

/-- ElementFactory::new from src/src/twiml.rs: a fresh node with the given
name and optional text, no attributes and no children. -/
def ElementFactory.new (element : String) (text : Option String) : ElementFactory :=
  ElementFactory.mk element text [] []

/-- The operation self.factory.attributes.push((key, value)) used by every
attribute-setting builder method in src/src/twiml.rs: append one pair at the
end of the attribute list. -/
def ElementFactory.pushAttribute : ElementFactory → String → String → ElementFactory
  | .mk e t a c, key, value => ElementFactory.mk e t (a ++ [(key, value)]) c

/-- The operation self.factory.children.push(Box::new(child)) used by every
child-appending builder method in src/src/twiml.rs: append one child at the
end of the child list. -/
def ElementFactory.pushChild : ElementFactory → ElementFactory → ElementFactory
  | .mk e t a c, child => ElementFactory.mk e t a (c ++ [child])

/-- Rust's Display implementation for bool, used by bool.to_string() in the
boolean attribute setters: the literal lowercase words true and false. -/
def rustBoolToString (b : Bool) : String := if b then "true" else "false"

/-- Modelled from the spec: the attribute part of an open tag, one
space-separated name="escaped value" item per pair, in list order.  The
attribute loop itself is ElementFactory::to_xml in src/src/twiml.rs; the
textual layout is that of the xml_builder crate, per spec section 6. -/
def attrsString : List (String × String) → String
  | [] => ""
  | (k, v) :: rest => " " ++ k ++ "=\"" ++ escape v ++ "\"" ++ attrsString rest

/-- Modelled from the spec: the rendered text payload, escaped; empty when the
node has no text. -/
def renderText : Option String → String
  | none => ""
  | some t => escape t

mutual

/-- ElementFactory::to_xml from src/src/twiml.rs combined with the rendering
of the resulting XMLElement.  Modelled from the spec for the xml_builder part,
which defines exactly three mutually exclusive shapes: self-closing short form
when the node has neither text nor children, open tag with attributes in
order, the escaped text and the close tag for a text-bearing node, and open
tag, the children in order and the close tag for a container; no whitespace
inserted anywhere.  For a node carrying both text and children neither the
spec (which treats text and children as mutually exclusive, sections 3 and
4.3) nor the code under src/ (which unwraps the fallible add_text result of
the absent xml_builder crate, twiml.rs line 75) determines an output; this
function is made total there by emitting the children and then the text,
following the order in which ElementFactory::to_xml adds them — a totality
completion, not behaviour established by spec or source. -/
def ElementFactory.to_xml : ElementFactory → String
  | .mk name text attrs children =>
    match text, children with
    | none, [] => "<" ++ name ++ attrsString attrs ++ "/>"
    | _, _ =>
      "<" ++ name ++ attrsString attrs ++ ">" ++ renderChildren children ++
        renderText text ++ "</" ++ name ++ ">"

/-- Rendering of a child list, in order, with nothing between siblings. -/
def renderChildren : List ElementFactory → String
  | [] => ""
  | c :: cs => ElementFactory.to_xml c ++ renderChildren cs

end

/-- Modelled from the spec: the fixed document declaration emitted by the
XMLBuilder configured in ToXmlString::to_xml_string (XML version 1.1, UTF-8
encoding, no line break since break_lines(false) is set). -/
def xmlDeclaration : String := "<?xml version=\"1.1\" encoding=\"UTF-8\"?>"

/-- ToXmlString::to_xml_string from src/src/twiml.rs: the declaration followed
by the rendered root element, a single unbroken line. -/
def to_xml_string (self : ElementFactory) : String :=
  xmlDeclaration ++ self.to_xml

/-- Modelled from the spec: the error taxonomy of the serializer.
StructuralError covers the multiple-or-missing-root condition of spec
sections 4.3 and 7. -/
inductive XMLError : Type where
  | StructuralError : XMLError
deriving Repr, DecidableEq

/-- Modelled from the spec: document-level rendering over a list of top-level
nodes.  The spec requires exactly one root; with one root the output is the
declaration plus that root's markup, otherwise the render call fails with
StructuralError and produces no output text. -/
def render (roots : List ElementFactory) : Except XMLError String :=
  match roots with
  | [r] => Except.ok (to_xml_string r)
  | _ => Except.error XMLError.StructuralError

-- The per-element builder types from src/src/twiml.rs.  Each wraps one
-- ElementFactory, exactly as the Rust structs do; each method is the direct
-- embedding of the Rust method of the same name.

/-- Say TwiML element (src/src/twiml.rs, struct Say). -/
structure Say : Type where
  factory : ElementFactory

/-- Say::new: a Say node with the required text payload. -/
def Say.new (text : String) : Say :=
  Say.mk (ElementFactory.new "Say" (some text))

/-- Say::voice: push the voice attribute. -/
def Say.voice (self : Say) (voice : String) : Say :=
  Say.mk (self.factory.pushAttribute "voice" voice)

/-- Say::language: push the language attribute. -/
def Say.language (self : Say) (language : String) : Say :=
  Say.mk (self.factory.pushAttribute "language" language)

/-- Redirect TwiML element (src/src/twiml.rs, struct Redirect). -/
structure Redirect : Type where
  factory : ElementFactory

/-- Redirect::new: a Redirect node with the url as text payload. -/
def Redirect.new (url : String) : Redirect :=
  Redirect.mk (ElementFactory.new "Redirect" (some url))

/-- Pause TwiML element (src/src/twiml.rs, struct Pause). -/
structure Pause : Type where
  factory : ElementFactory

/-- Pause::new: a Pause node with no text. -/
def Pause.new : Pause :=
  Pause.mk (ElementFactory.new "Pause" none)

/-- Hangup TwiML element (src/src/twiml.rs, struct Hangup). -/
structure Hangup : Type where
  factory : ElementFactory

/-- Hangup::new: a Hangup node with no text, no attributes, no children. -/
def Hangup.new : Hangup :=
  Hangup.mk (ElementFactory.new "Hangup" none)

/-- Gather TwiML element (src/src/twiml.rs, struct Gather). -/
structure Gather : Type where
  factory : ElementFactory

/-- Gather::new: a Gather node with no text. -/
def Gather.new : Gather :=
  Gather.mk (ElementFactory.new "Gather" none)

/-- Gather::action: push the action attribute. -/
def Gather.action (self : Gather) (action : String) : Gather :=
  Gather.mk (self.factory.pushAttribute "action" action)

/-- Gather::num_digits: push the numDigits attribute. -/
def Gather.num_digits (self : Gather) (num : String) : Gather :=
  Gather.mk (self.factory.pushAttribute "numDigits" num)

/-- Gather::profanity_filter: push the profanityFilter attribute rendered
from the bool argument. -/
def Gather.profanity_filter (self : Gather) (filter : Bool) : Gather :=
  Gather.mk (self.factory.pushAttribute "profanityFilter" (rustBoolToString filter))

/-- Gather::say: append a Say child. -/
def Gather.say (self : Gather) (say : Say) : Gather :=
  Gather.mk (self.factory.pushChild say.factory)

/-- Record TwiML element (src/src/twiml.rs, struct Record). -/
structure Record : Type where
  factory : ElementFactory

/-- Record::new: a Record node with no text. -/
def Record.new : Record :=
  Record.mk (ElementFactory.new "Record" none)

/-- Record::play_beep: push the playBeep attribute rendered from the bool. -/
def Record.play_beep (self : Record) (play_beep : Bool) : Record :=
  Record.mk (self.factory.pushAttribute "playBeep" (rustBoolToString play_beep))

/-- Record::transcribe: push the transcribe attribute rendered from the bool. -/
def Record.transcribe (self : Record) (transcribe : Bool) : Record :=
  Record.mk (self.factory.pushAttribute "transcribe" (rustBoolToString transcribe))

/-- Number TwiML element (src/src/twiml.rs, struct Number). -/
structure Number : Type where
  factory : ElementFactory

/-- Number::new: a Number node with the phone number as text payload. -/
def Number.new (number : String) : Number :=
  Number.mk (ElementFactory.new "Number" (some number))

/-- Conference TwiML element (src/src/twiml.rs, struct Conference). -/
structure Conference : Type where
  factory : ElementFactory

/-- Conference::new: a Conference node with the conference name as text. -/
def Conference.new (conference_name : String) : Conference :=
  Conference.mk (ElementFactory.new "Conference" (some conference_name))

/-- Conference::muted: push the muted attribute rendered from the bool. -/
def Conference.muted (self : Conference) (muted : Bool) : Conference :=
  Conference.mk (self.factory.pushAttribute "muted" (rustBoolToString muted))

/-- Conference::start_conference_on_enter: push the startConferenceOnEnter
attribute rendered from the bool. -/
def Conference.start_conference_on_enter (self : Conference) (start : Bool) : Conference :=
  Conference.mk (self.factory.pushAttribute "startConferenceOnEnter" (rustBoolToString start))

/-- Conference::end_conference_on_exit: push the endConferenceOnExit
attribute rendered from the bool. -/
def Conference.end_conference_on_exit (self : Conference) (e : Bool) : Conference :=
  Conference.mk (self.factory.pushAttribute "endConferenceOnExit" (rustBoolToString e))

/-- Dial TwiML element (src/src/twiml.rs, struct Dial). -/
structure Dial : Type where
  factory : ElementFactory

/-- Dial::new: a Dial node with an optional destination as text payload. -/
def Dial.new (destination : Option String) : Dial :=
  Dial.mk (ElementFactory.new "Dial" destination)

/-- Dial::hangup_on_star: push the hangupOnStar attribute rendered from the
bool. -/
def Dial.hangup_on_star (self : Dial) (hangup : Bool) : Dial :=
  Dial.mk (self.factory.pushAttribute "hangupOnStar" (rustBoolToString hangup))

/-- Dial::answer_on_bridge: push the answerOnBridge attribute rendered from
the bool. -/
def Dial.answer_on_bridge (self : Dial) (answer : Bool) : Dial :=
  Dial.mk (self.factory.pushAttribute "answerOnBridge" (rustBoolToString answer))

/-- Dial::number: append a Number child. -/
def Dial.number (self : Dial) (number : Number) : Dial :=
  Dial.mk (self.factory.pushChild number.factory)

/-- Dial::conference: append a Conference child. -/
def Dial.conference (self : Dial) (conference : Conference) : Dial :=
  Dial.mk (self.factory.pushChild conference.factory)

/-- Body TwiML element (src/src/twiml.rs, struct Body). -/
structure Body : Type where
  factory : ElementFactory

/-- Body::new: a Body node with the required text payload. -/
def Body.new (text : String) : Body :=
  Body.mk (ElementFactory.new "Body" (some text))

/-- Media TwiML element (src/src/twiml.rs, struct Media). -/
structure Media : Type where
  factory : ElementFactory

/-- Media::new: a Media node with the media url as text payload. -/
def Media.new (url : String) : Media :=
  Media.mk (ElementFactory.new "Media" (some url))

/-- Message TwiML element (src/src/twiml.rs, struct Message). -/
structure Message : Type where
  factory : ElementFactory

/-- Message::new from src/src/twiml.rs: note that the constructor stores its
argument as the node's text payload (ElementFactory::new("Message",
Some(message))). -/
def Message.new (message : String) : Message :=
  Message.mk (ElementFactory.new "Message" (some message))

/-- Message::body: append a Body child. -/
def Message.body (self : Message) (body : Body) : Message :=
  Message.mk (self.factory.pushChild body.factory)

/-- Message::media: append a Media child. -/
def Message.media (self : Message) (media : Media) : Message :=
  Message.mk (self.factory.pushChild media.factory)

/-- Response TwiML element, the document root (src/src/twiml.rs, struct
Response). -/
structure Response : Type where
  factory : ElementFactory

/-- Response::new: a Response node with no text. -/
def Response.new : Response :=
  Response.mk (ElementFactory.new "Response" none)

/-- Response::say: append a Say child. -/
def Response.say (self : Response) (say : Say) : Response :=
  Response.mk (self.factory.pushChild say.factory)

/-- Response::redirect from src/src/twiml.rs: construct Redirect::new(url)
and append it as a child. -/
def Response.redirect (self : Response) (url : String) : Response :=
  Response.mk (self.factory.pushChild (Redirect.new url).factory)

/-- Response::dial: append a Dial child. -/
def Response.dial (self : Response) (dial : Dial) : Response :=
  Response.mk (self.factory.pushChild dial.factory)

/-- Response::message: append a Message child. -/
def Response.message (self : Response) (message : Message) : Response :=
  Response.mk (self.factory.pushChild message.factory)

/-- The trait implementation ToXmlString for Response: render the wrapped
factory tree as a document (the same computation as the generic
to_xml_string on the wrapped ElementFactory). -/
def Response.to_xml_string (self : Response) : String :=
  xmlDeclaration ++ self.factory.to_xml

-- A generic harness for quantifying over arbitrary sequences of builder
-- calls: every attribute-setting method of the catalogue is an instance of
-- pushAttribute and every child-appending method an instance of pushChild,
-- so a call sequence is a list of these two operation kinds.

/-- One builder call: either an attribute-setting call or a child-appending
call. -/
inductive BuilderCall : Type where
  | setAttr (name : String) (value : String) : BuilderCall
  | addChild (child : ElementFactory) : BuilderCall

/-- Apply a single builder call to a node. -/
def applyCall (fac : ElementFactory) (c : BuilderCall) : ElementFactory :=
  match c with
  | .setAttr k v => fac.pushAttribute k v
  | .addChild ch => fac.pushChild ch

/-- Apply a sequence of builder calls left to right, as a method chain does. -/
def applyCalls (fac : ElementFactory) (calls : List BuilderCall) : ElementFactory :=
  calls.foldl applyCall fac

/-- The attribute pair carried by a call, when it is an attribute call. -/
def callAttr : BuilderCall → Option (String × String)
  | .setAttr k v => some (k, v)
  | .addChild _ => none

/-- The child carried by a call, when it is a child call. -/
def callChild : BuilderCall → Option ElementFactory
  | .setAttr _ _ => none
  | .addChild c => some c

-- Helper lemmas about the escaping machinery.

lemma ef_amp (t : List Char) :
    escapedForm ('&' :: 'a' :: 'm' :: 'p' :: ';' :: t) = escapedForm t := by
  simp [escapedForm, List.isPrefixOf, quoteChar, aposChar]

lemma ef_lt (t : List Char) :
    escapedForm ('&' :: 'l' :: 't' :: ';' :: t) = escapedForm t := by
  simp [escapedForm, List.isPrefixOf, quoteChar, aposChar]

lemma ef_gt (t : List Char) :
    escapedForm ('&' :: 'g' :: 't' :: ';' :: t) = escapedForm t := by
  simp [escapedForm, List.isPrefixOf, quoteChar, aposChar]

lemma ef_quot (t : List Char) :
    escapedForm ('&' :: 'q' :: 'u' :: 'o' :: 't' :: ';' :: t) = escapedForm t := by
  simp [escapedForm, List.isPrefixOf, quoteChar, aposChar]

lemma ef_apos (t : List Char) :
    escapedForm ('&' :: 'a' :: 'p' :: 'o' :: 's' :: ';' :: t) = escapedForm t := by
  simp [escapedForm, List.isPrefixOf, quoteChar, aposChar]

lemma ef_plain (c : Char) (t : List Char) (h1 : c ≠ '&') (h2 : c ≠ '<') (h3 : c ≠ '>')
    (h4 : c ≠ quoteChar) (h5 : c ≠ aposChar) :
    escapedForm (c :: t) = escapedForm t := by
  simp [escapedForm, h1, h2, h3, h4, h5]

lemma un_amp (t : List Char) :
    unescapeList ('&' :: 'a' :: 'm' :: 'p' :: ';' :: t) = '&' :: unescapeList t := by
  simp [unescapeList, List.isPrefixOf]

lemma un_lt (t : List Char) :
    unescapeList ('&' :: 'l' :: 't' :: ';' :: t) = '<' :: unescapeList t := by
  simp [unescapeList, List.isPrefixOf]

lemma un_gt (t : List Char) :
    unescapeList ('&' :: 'g' :: 't' :: ';' :: t) = '>' :: unescapeList t := by
  simp [unescapeList, List.isPrefixOf]

lemma un_quot (t : List Char) :
    unescapeList ('&' :: 'q' :: 'u' :: 'o' :: 't' :: ';' :: t) = quoteChar :: unescapeList t := by
  simp [unescapeList, List.isPrefixOf]

lemma un_apos (t : List Char) :
    unescapeList ('&' :: 'a' :: 'p' :: 'o' :: 's' :: ';' :: t) = aposChar :: unescapeList t := by
  simp [unescapeList, List.isPrefixOf]

lemma un_plain (c : Char) (t : List Char) (h1 : c ≠ '&') :
    unescapeList (c :: t) = c :: unescapeList t := by
  simp [unescapeList, h1]

/-- Escaping a character list yields a fully escaped form, and re-parsing it
recovers the original list. -/
lemma escapeList_roundtrip (l : List Char) :
    escapedForm (escapeList l) = true ∧ unescapeList (escapeList l) = l := by
  induction l with
  | nil => exact ⟨by rw [escapeList, escapedForm], by rw [escapeList, unescapeList]⟩
  | cons c t ih =>
    obtain ⟨ih1, ih2⟩ := ih
    by_cases h1 : c = '&'
    · subst h1
      refine ⟨?_, ?_⟩
      · show escapedForm ('&' :: 'a' :: 'm' :: 'p' :: ';' :: escapeList t) = true
        rw [ef_amp]; exact ih1
      · show unescapeList ('&' :: 'a' :: 'm' :: 'p' :: ';' :: escapeList t) = '&' :: t
        rw [un_amp, ih2]
    · by_cases h2 : c = '<'
      · subst h2
        refine ⟨?_, ?_⟩
        · show escapedForm ('&' :: 'l' :: 't' :: ';' :: escapeList t) = true
          rw [ef_lt]; exact ih1
        · show unescapeList ('&' :: 'l' :: 't' :: ';' :: escapeList t) = '<' :: t
          rw [un_lt, ih2]
      · by_cases h3 : c = '>'
        · subst h3
          refine ⟨?_, ?_⟩
          · show escapedForm ('&' :: 'g' :: 't' :: ';' :: escapeList t) = true
            rw [ef_gt]; exact ih1
          · show unescapeList ('&' :: 'g' :: 't' :: ';' :: escapeList t) = '>' :: t
            rw [un_gt, ih2]
        · by_cases h4 : c = quoteChar
          · subst h4
            refine ⟨?_, ?_⟩
            · show escapedForm ('&' :: 'q' :: 'u' :: 'o' :: 't' :: ';' :: escapeList t) = true
              rw [ef_quot]; exact ih1
            · show unescapeList ('&' :: 'q' :: 'u' :: 'o' :: 't' :: ';' :: escapeList t) =
                quoteChar :: t
              rw [un_quot, ih2]
          · by_cases h5 : c = aposChar
            · subst h5
              refine ⟨?_, ?_⟩
              · show escapedForm ('&' :: 'a' :: 'p' :: 'o' :: 's' :: ';' :: escapeList t) = true
                rw [ef_apos]; exact ih1
              · show unescapeList ('&' :: 'a' :: 'p' :: 'o' :: 's' :: ';' :: escapeList t) =
                  aposChar :: t
                rw [un_apos, ih2]
            · have e1 : escapeList (c :: t) = c :: escapeList t := by
                show escapeChar c ++ escapeList t = c :: escapeList t
                rw [show escapeChar c = [c] by simp [escapeChar, h1, h2, h3, h4, h5]]
                rfl
              rw [e1, ef_plain c _ h1 h2 h3 h4 h5, un_plain c _ h1, ih2]
              exact ⟨ih1, rfl⟩

lemma applyCalls_spec : ∀ (calls : List BuilderCall) (fac : ElementFactory),
    (applyCalls fac calls).attributes = fac.attributes ++ calls.filterMap callAttr ∧
    (applyCalls fac calls).children = fac.children ++ calls.filterMap callChild ∧
    (applyCalls fac calls).element = fac.element ∧
    (applyCalls fac calls).text = fac.text := by
  intro calls
  induction calls with
  | nil =>
    intro fac
    exact ⟨(List.append_nil _).symm, (List.append_nil _).symm, rfl, rfl⟩
  | cons c cs ih =>
    intro fac
    obtain ⟨fe, ft, fa, fc⟩ := fac
    cases c with
    | setAttr k v =>
      obtain ⟨a1, a2, a3, a4⟩ := ih (ElementFactory.mk fe ft (fa ++ [(k, v)]) fc)
      have e : applyCalls (ElementFactory.mk fe ft fa fc) (BuilderCall.setAttr k v :: cs) =
          applyCalls (ElementFactory.mk fe ft (fa ++ [(k, v)]) fc) cs := rfl
      rw [e]
      refine ⟨?_, ?_, ?_, ?_⟩
      · rw [a1]
        simp [ElementFactory.attributes, callAttr, List.filterMap_cons, List.append_assoc]
      · rw [a2]
        simp [ElementFactory.children, callChild, List.filterMap_cons]
      · rw [a3]
        rfl
      · rw [a4]
        rfl
    | addChild ch =>
      obtain ⟨a1, a2, a3, a4⟩ := ih (ElementFactory.mk fe ft fa (fc ++ [ch]))
      have e : applyCalls (ElementFactory.mk fe ft fa fc) (BuilderCall.addChild ch :: cs) =
          applyCalls (ElementFactory.mk fe ft fa (fc ++ [ch])) cs := rfl
      rw [e]
      refine ⟨?_, ?_, ?_, ?_⟩
      · rw [a1]
        simp [ElementFactory.attributes, callAttr, List.filterMap_cons]
      · rw [a2]
        simp [ElementFactory.children, callChild, List.filterMap_cons, List.append_assoc]
      · rw [a3]
        rfl
      · rw [a4]
        rfl

-- The ten claims.

/-- C1: rendering a Response that first appends Say::new("Welcome") and then a
Redirect child with text "/next" yields exactly the declared XML 1.1 UTF-8
document with no whitespace between tags. -/
theorem response_say_redirect_renders_exact :
    Response.to_xml_string ((Response.new.say (Say.new "Welcome")).redirect "/next") =
      "<?xml version=\"1.1\" encoding=\"UTF-8\"?><Response><Say>Welcome</Say><Redirect>/next</Redirect></Response>" := by
  decide

/-- C3: a node with neither text nor children renders self-closing; a node
with text and no children renders open-text-close with no child elements; a
node with children and no text renders open-children-close with no text; in
particular Hangup::new renders as the self-closing Hangup tag. -/
theorem node_rendering_forms :
    ∀ (name : String) (attrs : List (String × String)),
    (ElementFactory.mk name none attrs []).to_xml = "<" ++ name ++ attrsString attrs ++ "/>" ∧
    (∀ t : String, (ElementFactory.mk name (some t) attrs []).to_xml =
      "<" ++ name ++ attrsString attrs ++ ">" ++ escape t ++ "</" ++ name ++ ">") ∧
    (∀ (c : ElementFactory) (cs : List ElementFactory),
      (ElementFactory.mk name none attrs (c :: cs)).to_xml =
        "<" ++ name ++ attrsString attrs ++ ">" ++ renderChildren (c :: cs) ++
          "</" ++ name ++ ">") ∧
    Hangup.new.factory.to_xml = "<Hangup/>" := by
  intro name attrs
  refine ⟨rfl, ?_, ?_, by decide⟩
  · intro t
    simp [ElementFactory.to_xml, renderChildren, renderText, String.append_assoc]
  · intro c cs
    simp [ElementFactory.to_xml, renderChildren, renderText, String.append_assoc]

/-- C5 counterexample: Message::new stores its argument as the node's text
payload, so a Message node produced by the builder API does not have text
absent, contrary to the claim. -/
theorem message_new_sets_text :
    (Message.new "Hello").factory.text = some "Hello" ∧
    ¬ (Message.new "Hello").factory.text = none := by
  exact ⟨rfl, by simp [Message.new, ElementFactory.new, ElementFactory.text]⟩

/-- C5 amended: Message::new stores the constructor argument as the node's
text payload and creates no children; the only child-appending methods of
Message append Body and Media elements, preserving the text. -/
theorem message_text_and_children :
    ∀ (m : String) (msg : Message) (b : Body) (md : Media),
    (Message.new m).factory.element = "Message" ∧
    (Message.new m).factory.text = some m ∧
    (Message.new m).factory.children = [] ∧
    (msg.body b).factory.text = msg.factory.text ∧
    (msg.body b).factory.children = msg.factory.children ++ [b.factory] ∧
    (msg.media md).factory.text = msg.factory.text ∧
    (msg.media md).factory.children = msg.factory.children ++ [md.factory] ∧
    (Body.new m).factory.element = "Body" ∧
    (Media.new m).factory.element = "Media" := by
  intro m msg b md
  obtain ⟨⟨e, t, a, c⟩⟩ := msg
  exact ⟨rfl, rfl, rfl, rfl, rfl, rfl, rfl, rfl, rfl⟩

/-- C6: rendering a list of top-level nodes that does not consist of exactly
one root fails with StructuralError; the error result carries no output
text. -/
theorem render_requires_single_root :
    ∀ (roots : List ElementFactory), roots.length ≠ 1 →
      render roots = Except.error XMLError.StructuralError := by
  intro roots h
  match roots with
  | [] => rfl
  | [r] => exact absurd rfl h
  | r1 :: r2 :: rest => rfl

/-- Witness for C6 at the empty root list. -/
theorem render_requires_single_root_witness :
    render ([] : List ElementFactory) = Except.error XMLError.StructuralError :=
  render_requires_single_root [] (by decide)

/-- C7: every boolean attribute setter appends its attribute with the literal
lowercase word true or false; in particular a Conference with muted(false)
and start_conference_on_enter(true) renders exactly those attribute
strings. -/
theorem boolean_attributes_render_literal :
    rustBoolToString true = "true" ∧
    rustBoolToString false = "false" ∧
    (∀ (c : Conference) (b : Bool),
      (c.muted b).factory.attributes =
        c.factory.attributes ++ [("muted", rustBoolToString b)]) ∧
    (∀ (c : Conference) (b : Bool),
      (c.start_conference_on_enter b).factory.attributes =
        c.factory.attributes ++ [("startConferenceOnEnter", rustBoolToString b)]) ∧
    (∀ (c : Conference) (b : Bool),
      (c.end_conference_on_exit b).factory.attributes =
        c.factory.attributes ++ [("endConferenceOnExit", rustBoolToString b)]) ∧
    (∀ (g : Gather) (b : Bool),
      (g.profanity_filter b).factory.attributes =
        g.factory.attributes ++ [("profanityFilter", rustBoolToString b)]) ∧
    (∀ (r : Record) (b : Bool),
      (r.play_beep b).factory.attributes =
        r.factory.attributes ++ [("playBeep", rustBoolToString b)]) ∧
    (∀ (r : Record) (b : Bool),
      (r.transcribe b).factory.attributes =
        r.factory.attributes ++ [("transcribe", rustBoolToString b)]) ∧
    (∀ (d : Dial) (b : Bool),
      (d.hangup_on_star b).factory.attributes =
        d.factory.attributes ++ [("hangupOnStar", rustBoolToString b)]) ∧
    (∀ (d : Dial) (b : Bool),
      (d.answer_on_bridge b).factory.attributes =
        d.factory.attributes ++ [("answerOnBridge", rustBoolToString b)]) ∧
    (((Conference.new "Room123").muted false).start_conference_on_enter true).factory.to_xml =
      "<Conference muted=\"false\" startConferenceOnEnter=\"true\">Room123</Conference>" := by
  refine ⟨rfl, rfl, ?_, ?_, ?_, ?_, ?_, ?_, ?_, ?_, by decide⟩ <;>
    exact fun c b => by obtain ⟨⟨e, t, a, ch⟩⟩ := c; rfl

/-- C8: rendering is a deterministic pure function of the tree; two render
calls on the same unmutated tree yield identical output strings. -/
theorem render_deterministic :
    ∀ (root : ElementFactory) (s1 s2 : String),
      render [root] = Except.ok s1 → render [root] = Except.ok s2 → s1 = s2 := by
  intro root s1 s2 h1 h2
  exact Except.ok.inj (h1.symm.trans h2)

/-- Witness for C8 at a concrete one-node tree. -/
theorem render_deterministic_witness :
    to_xml_string (ElementFactory.new "Response" none) =
      to_xml_string (ElementFactory.new "Response" none) :=
  render_deterministic (ElementFactory.new "Response" none) _ _ rfl rfl

/-- C9: the two primitive mutations used by every builder method are
append-only: pushAttribute preserves the element name, text and children and
appends exactly one pair at the end of the attribute list; pushChild
preserves the name, text and attributes and appends exactly one child at the
end of the child list; Say::voice and Response::say are literal instances. -/
theorem builder_mutators_append_only :
    ∀ (fac : ElementFactory) (k v : String) (child : ElementFactory),
    (fac.pushAttribute k v).element = fac.element ∧
    (fac.pushAttribute k v).text = fac.text ∧
    (fac.pushAttribute k v).children = fac.children ∧
    (fac.pushAttribute k v).attributes = fac.attributes ++ [(k, v)] ∧
    (fac.pushChild child).element = fac.element ∧
    (fac.pushChild child).text = fac.text ∧
    (fac.pushChild child).attributes = fac.attributes ∧
    (fac.pushChild child).children = fac.children ++ [child] ∧
    (∀ (s : Say) (voice : String),
      s.voice voice = Say.mk (s.factory.pushAttribute "voice" voice)) ∧
    (∀ (r : Response) (say : Say),
      r.say say = Response.mk (r.factory.pushChild say.factory)) := by
  intro fac k v child
  obtain ⟨e, t, a, c⟩ := fac
  exact ⟨rfl, rfl, rfl, rfl, rfl, rfl, rfl, rfl, fun _ _ => rfl, fun _ _ => rfl⟩

/-- C2: every text or attribute value is emitted through XML escaping: the
escaped form contains no raw less-than, greater-than, quote or apostrophe and
every ampersand starts an entity, so the markup stays well formed; re-parsing
the escaped data recovers the original value exactly; and a node carrying the
value both as text and as an attribute value renders it only in escaped
form. -/
theorem escaped_values_roundtrip :
    ∀ (s n k : String),
    escapedForm (escape s).data = true ∧
    unescape (escape s) = s ∧
    (ElementFactory.mk n (some s) [(k, s)] []).to_xml =
      "<" ++ n ++ " " ++ k ++ "=\"" ++ escape s ++ "\"" ++ ">" ++ escape s ++
        "</" ++ n ++ ">" := by
  intro s n k
  obtain ⟨h1, h2⟩ := escapeList_roundtrip s.data
  refine ⟨h1, ?_, ?_⟩
  · show String.mk (unescapeList (escapeList s.data)) = s
    rw [h2]
  · simp [ElementFactory.to_xml, attrsString, renderChildren, renderText, String.append_assoc]

/-- C4: builder calls append attributes and children in call order, and the
renderer emits the attribute list and the child list in exactly that list
order: the open tag lists the pairs left to right and the body lists the
rendered children left to right; Say::voice and Gather::say are literal
instances of the two call kinds. -/
theorem attribute_child_order_preserved :
    ∀ (fac : ElementFactory) (calls : List BuilderCall),
    (applyCalls fac calls).attributes = fac.attributes ++ calls.filterMap callAttr ∧
    (applyCalls fac calls).children = fac.children ++ calls.filterMap callChild ∧
    (∀ (k v : String) (rest : List (String × String)),
      attrsString ((k, v) :: rest) =
        " " ++ k ++ "=\"" ++ escape v ++ "\"" ++ attrsString rest) ∧
    (∀ (c : ElementFactory) (cs : List ElementFactory),
      renderChildren (c :: cs) = c.to_xml ++ renderChildren cs) ∧
    (∀ (s : Say) (v : String),
      (s.voice v).factory.attributes = s.factory.attributes ++ [("voice", v)]) ∧
    (∀ (g : Gather) (sy : Say),
      (g.say sy).factory.children = g.factory.children ++ [sy.factory]) ∧
    (∀ (name : String) (t : Option String) (attrs : List (String × String))
      (c : ElementFactory) (cs : List ElementFactory),
      (ElementFactory.mk name t attrs (c :: cs)).to_xml =
        "<" ++ name ++ attrsString attrs ++ ">" ++ renderChildren (c :: cs) ++
          renderText t ++ "</" ++ name ++ ">") := by
  intro fac calls
  obtain ⟨b1, b2, _, _⟩ := applyCalls_spec calls fac
  refine ⟨b1, b2, fun k v rest => rfl, fun c cs => rfl, ?_, ?_, ?_⟩
  · exact fun s v => by obtain ⟨⟨e, t, a, ch⟩⟩ := s; rfl
  · exact fun g sy => by obtain ⟨⟨e, t, a, ch⟩⟩ := g; rfl
  · intro name t attrs c cs
    cases t with
    | none => rfl
    | some t0 => rfl
